import Mathlib

/-!
Shallow embedding of the outfit-history state machine of the Fit-Check
virtual try-on application (src/unnamed/part_000, types in
src/unnamed/part_001).  Each React event handler becomes a function from
the pre-state to the post-state; the asynchronous calls to the external
image-synthesis service are modelled by passing the outcome of each call
in as an `Option String` parameter (`none` = the call failed / threw).
Handlers that may call the service also return the number of service
calls they issued, so that "no network call" properties are statable.
-/

namespace FitCheck

/-- `WardrobeItem` from types (src/unnamed/part_001). -/
structure WardrobeItem where
  id : String
  name : String
  url : String
deriving Repr, DecidableEq

/-- `OutfitLayer` from types: `garment` is `null` for the base model layer;
`poseImages` is a JS `Record<string, string>`, modelled as an
insertion-ordered association list (JS objects with string keys preserve
insertion order, which matters because the code uses
`Object.values(poseImages)[0]` as a fallback). -/
structure OutfitLayer where
  garment : Option WardrobeItem
  poseImages : List (String × String)
deriving Repr, DecidableEq

/-- `SavedOutfit` from types. -/
structure SavedOutfit where
  id : String
  name : String
  thumbnailUrl : String
  layers : List (Option WardrobeItem)
deriving Repr, DecidableEq

/-- `Background` from types. -/
structure Background where
  id : String
  name : String
  thumbnailUrl : String
  prompt : String
deriving Repr, DecidableEq

/-- `POSE_INSTRUCTIONS` constant from src/unnamed/part_000. -/
def POSE_INSTRUCTIONS : List String :=
  [ "Full frontal view, hands on hips"
  , "Slightly turned, 3/4 view"
  , "Side profile view"
  , "Jumping in the air, mid-action shot"
  , "Walking towards camera"
  , "Leaning against a wall" ]

/-- `defaultBackgrounds` catalog from backgrounds.ts (second document in
src/unnamed/part_000). -/
def defaultBackgrounds : List Background :=
  [ { id := "studio", name := "Neutral Studio"
    , thumbnailUrl := "https://storage.googleapis.com/gemini-95-icons/background-studio.jpg"
    , prompt := "a clean, neutral studio backdrop (light gray, #f0f0f0)" }
  , { id := "outdoor-cafe", name := "Outdoor Cafe"
    , thumbnailUrl := "https://storage.googleapis.com/gemini-95-icons/background-cafe.jpg"
    , prompt := "a blurry, sun-drenched outdoor cafe patio with green plants in the background, creating a soft bokeh effect" }
  , { id := "city-street", name := "City Street"
    , thumbnailUrl := "https://storage.googleapis.com/gemini-95-icons/background-city.jpg"
    , prompt := "a vibrant, slightly blurred city street scene during the day, with architectural details and soft light" }
  , { id := "abstract", name := "Abstract"
    , thumbnailUrl := "https://storage.googleapis.com/gemini-95-icons/background-gradient.jpg"
    , prompt := "a minimal, abstract background with a soft, tasteful gradient of pastel colors (light peach to soft lavender)" } ]

/-- JS truthiness of an optional string: `null`/`undefined` and the empty
string are falsy.  Used wherever the source tests a value with `!x` or
`if (x)`. -/
def jsTruthy : Option String → Bool
  | some v => !(v == "")
  | none => false

/-- Lookup in a JS record modelled as an association list
(`record[key]`, `undefined` becoming `none`). -/
def recordGet (r : List (String × String)) (k : String) : Option String :=
  (r.find? (fun p => p.1 == k)).map (fun p => p.2)

/-- Assignment `record[key] = v`: overwrite in place if the key exists,
otherwise append (JS insertion order). -/
def recordSet (r : List (String × String)) (k v : String) : List (String × String) :=
  if (r.find? (fun p => p.1 == k)).isSome then
    r.map (fun p => if p.1 == k then (k, v) else p)
  else r ++ [(k, v)]

/-- `Object.values(record)` in insertion order. -/
def recordValues (r : List (String × String)) : List String :=
  r.map (fun p => p.2)

/-- `POSE_INSTRUCTIONS[i]` as a JS computed object key: an out-of-range
index yields `undefined`, which stringifies to the key `"undefined"`. -/
def poseKeyAt (i : Nat) : String :=
  (POSE_INSTRUCTIONS[i]?).getD "undefined"

/-- The React `useState` cells of the `App` component that belong to the
outfit-history state machine (rendering-only state such as
`isSheetCollapsed` is out of scope, as is the spec's). -/
structure AppState where
  modelImageUrl : Option String
  outfitHistory : List OutfitLayer
  currentOutfitIndex : Nat
  isLoading : Bool
  loadingMessage : String
  error : Option String
  currentPoseIndex : Nat
  wardrobe : List WardrobeItem
  savedOutfits : List SavedOutfit
  currentBackgroundId : String
deriving Repr, DecidableEq

/-- `activeOutfitLayers` memo: `outfitHistory.slice(0, currentOutfitIndex + 1)`. -/
def activeOutfitLayers (s : AppState) : List OutfitLayer :=
  s.outfitHistory.take (s.currentOutfitIndex + 1)

/-- `displayImageUrl` memo: the active layer's image for the current pose,
falling back to the first-inserted pose image, falling back to the raw
model image when the history is empty or the cursor is out of range.
The inner fallback uses JS `??` (nullish coalescing), so an empty-string
entry is returned as-is. -/
def displayImageUrl (s : AppState) : Option String :=
  if s.outfitHistory.isEmpty then s.modelImageUrl
  else
    match s.outfitHistory[s.currentOutfitIndex]? with
    | none => s.modelImageUrl
    | some currentLayer =>
      match recordGet currentLayer.poseImages (poseKeyAt s.currentPoseIndex) with
      | some v => some v
      | none => (recordValues currentLayer.poseImages).head?

/-- `handleModelFinalized`: reset the history to the single base layer
holding the finalized model image under the first pose key. -/
def handleModelFinalized (url : String) (s : AppState) : AppState :=
  { s with
    modelImageUrl := some url
  , outfitHistory := [{ garment := none, poseImages := [(poseKeyAt 0, url)] }]
  , currentOutfitIndex := 0 }

/-- Slow path of `handleGarmentSelect`: one service call
(`generateVirtualTryOnImage`); on success truncate the history to the
cursor, append the new layer, advance the cursor and register the garment
in the wardrobe if unseen; on failure only the error/loading cells change
(the `finally` block clears the busy flag on both paths). -/
def handleGarmentSelectSlow (garmentInfo : WardrobeItem) (svc : Option String)
    (s : AppState) : AppState × Nat :=
  match svc with
  | some newImageUrl =>
    let key := poseKeyAt s.currentPoseIndex
    let newLayer : OutfitLayer := { garment := some garmentInfo, poseImages := [(key, newImageUrl)] }
    ({ s with
        error := none
      , isLoading := false
      , loadingMessage := ""
      , outfitHistory := s.outfitHistory.take (s.currentOutfitIndex + 1) ++ [newLayer]
      , currentOutfitIndex := s.currentOutfitIndex + 1
      , wardrobe :=
          if (s.wardrobe.find? (fun item => item.id == garmentInfo.id)).isSome then s.wardrobe
          else s.wardrobe ++ [garmentInfo] }, 1)
  | none =>
    ({ s with
        error := some "Failed to apply garment"
      , isLoading := false
      , loadingMessage := "" }, 1)

/-- `handleGarmentSelect`: early return when there is no display image or a
mutation is in flight; redo fast path when the layer just after the cursor
already carries the selected garment id; otherwise the slow path. -/
def handleGarmentSelect (garmentInfo : WardrobeItem) (svc : Option String)
    (s : AppState) : AppState × Nat :=
  if ¬ jsTruthy (displayImageUrl s) ∨ s.isLoading then (s, 0)
  else
    match s.outfitHistory[s.currentOutfitIndex + 1]? with
    | some nextLayer =>
      if nextLayer.garment.map (fun w => w.id) = some garmentInfo.id then
        ({ s with currentOutfitIndex := s.currentOutfitIndex + 1, currentPoseIndex := 0 }, 0)
      else handleGarmentSelectSlow garmentInfo svc s
    | none => handleGarmentSelectSlow garmentInfo svc s

/-- `handleRemoveLastGarment`: decrement the cursor without truncating. -/
def handleRemoveLastGarment (s : AppState) : AppState :=
  if s.currentOutfitIndex > 0 then
    { s with currentOutfitIndex := s.currentOutfitIndex - 1, currentPoseIndex := 0 }
  else s

/-- `handlePoseSelect`: guard, cache-hit short circuit, otherwise one
`generatePoseVariation` call with optimistic cursor update, reverted on
failure.  An out-of-range outfit cursor makes the JS code throw a
`TypeError` before any state update, leaving the state unchanged. -/
def handlePoseSelect (newIndex : Nat) (svc : Option String) (s : AppState) : AppState × Nat :=
  if s.isLoading ∨ s.outfitHistory.isEmpty ∨ newIndex = s.currentPoseIndex then (s, 0)
  else
    let poseInstruction := poseKeyAt newIndex
    match s.outfitHistory[s.currentOutfitIndex]? with
    | none => (s, 0)
    | some currentLayer =>
      if jsTruthy (recordGet currentLayer.poseImages poseInstruction) then
        ({ s with currentPoseIndex := newIndex }, 0)
      else
        if ¬ jsTruthy (recordValues currentLayer.poseImages).head? then (s, 0)
        else
          match svc with
          | some newImageUrl =>
            ({ s with
                error := none
              , isLoading := false
              , loadingMessage := ""
              , currentPoseIndex := newIndex
              , outfitHistory := s.outfitHistory.set s.currentOutfitIndex
                  { currentLayer with
                    poseImages := recordSet currentLayer.poseImages poseInstruction newImageUrl } }, 1)
          | none =>
            ({ s with
                error := some "Failed to change pose"
              , isLoading := false
              , loadingMessage := "" }, 1)

/-- The base image `handleBackgroundChange` sends to the service:
`poseImages[activeKey] ?? Object.values(poseImages)[0]` (nullish `??`,
so an empty-string cache entry is kept and later fails the `!base` test). -/
def bgBaseImage (layer : OutfitLayer) (poseIdx : Nat) : Option String :=
  match recordGet layer.poseImages (poseKeyAt poseIdx) with
  | some v => some v
  | none => (recordValues layer.poseImages).head?

/-- `handleBackgroundChange`: guard; then inside the `try` block the base
image is computed (a missing layer or falsy base image throws, landing in
the `catch` with zero service calls); on a successful
`changeBackgroundImage` call the active layer's pose map is reset to the
single freshly rendered entry; on any failure the optimistic background-id
update is reverted (so the id is unchanged overall). -/
def handleBackgroundChange (newBackgroundId : String) (svc : Option String)
    (s : AppState) : AppState × Nat :=
  if (defaultBackgrounds.find? (fun bg => bg.id == newBackgroundId)).isNone
      ∨ s.isLoading ∨ s.currentBackgroundId = newBackgroundId
      ∨ s.outfitHistory.isEmpty then (s, 0)
  else
    match s.outfitHistory[s.currentOutfitIndex]? with
    | none =>
      ({ s with
          error := some "Failed to change background"
        , isLoading := false
        , loadingMessage := "" }, 0)
    | some currentLayer =>
      if ¬ jsTruthy (bgBaseImage currentLayer s.currentPoseIndex) then
        ({ s with
            error := some "Failed to change background"
          , isLoading := false
          , loadingMessage := "" }, 0)
      else
        match svc with
        | some newImageUrl =>
          let key := poseKeyAt s.currentPoseIndex
          ({ s with
              error := none
            , isLoading := false
            , loadingMessage := ""
            , currentBackgroundId := newBackgroundId
            , outfitHistory := s.outfitHistory.set s.currentOutfitIndex
                { currentLayer with poseImages := [(key, newImageUrl)] } }, 1)
        | none =>
          ({ s with
              error := some "Failed to change background"
            , isLoading := false
            , loadingMessage := "" }, 1)

/-- `handleSaveOutfit`: declined when at most one active layer or no display
image; otherwise append a `SavedOutfit` snapshot of the active garment
sequence.  The JS id is `Date.now().toString()`, modelled as the `newId`
parameter. -/
def handleSaveOutfit (newId : String) (s : AppState) : AppState :=
  if (activeOutfitLayers s).length ≤ 1 ∨ ¬ jsTruthy (displayImageUrl s) then s
  else
    let newSavedOutfit : SavedOutfit :=
      { id := newId
      , name := "Outfit " ++ toString (s.savedOutfits.length + 1)
      , thumbnailUrl := (displayImageUrl s).getD ""
      , layers := (activeOutfitLayers s).map (fun l => l.garment) }
    { s with savedOutfits := s.savedOutfits ++ [newSavedOutfit] }

/-- `handleDeleteOutfit`: drop the entry with the given id. -/
def handleDeleteOutfit (idToDelete : String) (s : AppState) : AppState :=
  { s with savedOutfits := s.savedOutfits.filter (fun o => !(o.id == idToDelete)) }

/-- The sequential re-application loop of `handleLoadOutfit`.  `svc i` is
the outcome of the `i`-th `generateVirtualTryOnImage` call; the loop
accumulates the new history in the local `newHistory` buffer and threads
the previous result as the next base image.  Returns `none` as soon as a
call fails (the JS exception aborts the loop), together with the number of
service calls issued. -/
def loadOutfitLoop (svc : Nat → Option String) :
    List WardrobeItem → Nat → List OutfitLayer → String →
    Option (List OutfitLayer) × Nat
  | [], i, acc, _ => (some acc, i)
  | garment :: rest, i, acc, _currentImageUrl =>
    match svc i with
    | some newImageUrl =>
      loadOutfitLoop svc rest (i + 1)
        (acc ++ [{ garment := some garment, poseImages := [(poseKeyAt 0, newImageUrl)] }])
        newImageUrl
    | none => (none, i + 1)

/-- `handleLoadOutfit`: guard; reset the background to the default before
the `try` block (this reset is NOT reverted on failure); rebuild the
history in a local buffer by re-applying every non-null garment of the
snapshot in order; commit the rebuilt history, cursor and pose index only
if every call succeeded, otherwise only set the error (the previous
history stays in place). -/
def handleLoadOutfit (outfitToLoad : SavedOutfit) (svc : Nat → Option String)
    (s : AppState) : AppState × Nat :=
  if s.isLoading ∨ ¬ jsTruthy s.modelImageUrl then (s, 0)
  else
    let modelUrl := s.modelImageUrl.getD ""
    let baseLayer : OutfitLayer := { garment := none, poseImages := [(poseKeyAt 0, modelUrl)] }
    let garmentsToApply := outfitToLoad.layers.filterMap id
    let defaultBgId := ((defaultBackgrounds[0]?).map (fun bg => bg.id)).getD ""
    match loadOutfitLoop svc garmentsToApply 0 [baseLayer] modelUrl with
    | (some newHistory, calls) =>
      ({ s with
          error := none
        , isLoading := false
        , loadingMessage := ""
        , currentBackgroundId := defaultBgId
        , outfitHistory := newHistory
        , currentOutfitIndex := newHistory.length - 1
        , currentPoseIndex := 0 }, calls)
    | (none, calls) =>
      ({ s with
          error := some "Failed to load outfit"
        , isLoading := false
        , loadingMessage := ""
        , currentBackgroundId := defaultBgId }, calls)

/-- One user intent of the state machine (operations of spec §4.1), with
the outcomes of the external synthesis calls baked in as data. -/
inductive Op where
  | modelFinalized (url : String)
  | applyGarment (g : WardrobeItem) (svc : Option String)
  | removeLastGarment
  | selectPose (newIndex : Nat) (svc : Option String)
  | changeBackground (bgId : String) (svc : Option String)
  | saveSnapshot (newId : String)
  | deleteSnapshot (idToDelete : String)
  | loadSnapshot (outfit : SavedOutfit) (svc : Nat → Option String)

/-- The post-state of one operation. -/
def step : Op → AppState → AppState
  | .modelFinalized url, s => handleModelFinalized url s
  | .applyGarment g svc, s => (handleGarmentSelect g svc s).1
  | .removeLastGarment, s => handleRemoveLastGarment s
  | .selectPose i svc, s => (handlePoseSelect i svc s).1
  | .changeBackground b svc, s => (handleBackgroundChange b svc s).1
  | .saveSnapshot i, s => handleSaveOutfit i s
  | .deleteSnapshot i, s => handleDeleteOutfit i s
  | .loadSnapshot o svc, s => (handleLoadOutfit o svc s).1

/-- States reachable by any sequence of operations after `initialize`. -/
inductive Reachable : AppState → Prop
  | init (s : AppState) (url : String) : Reachable (handleModelFinalized url s)
  | step (o : Op) (s : AppState) (h : Reachable s) : Reachable (step o s)

/-- Well-formedness of a history: non-empty, the base layer's garment is
`none`, every later layer carries a garment. -/
def histWF : List OutfitLayer → Bool
  | [] => false
  | l0 :: rest => l0.garment.isNone && rest.all (fun l => l.garment.isSome)

/-- The state-machine invariant: cursor in range and well-formed history. -/
def Inv (s : AppState) : Prop :=
  s.currentOutfitIndex < s.outfitHistory.length ∧ histWF s.outfitHistory = true

/-! ### Concrete fixtures (used only in witnesses and counterexamples) -/

/-- A concrete garment. -/
def gShirt : WardrobeItem :=
  { id := "gemini-sweat", name := "Gemini Sweat", url := "https://example.com/sweat.png" }

/-- Another concrete garment. -/
def gJacket : WardrobeItem :=
  { id := "gemini-jacket", name := "Gemini Jacket", url := "https://example.com/jacket.png" }

/-- The pre-initialization state (the `useState` initializers; the wardrobe
starts from the static default catalog, irrelevant to the claims and taken
empty here). -/
def sEmpty : AppState :=
  { modelImageUrl := none
  , outfitHistory := []
  , currentOutfitIndex := 0
  , isLoading := false
  , loadingMessage := ""
  , error := none
  , currentPoseIndex := 0
  , wardrobe := []
  , savedOutfits := []
  , currentBackgroundId := "studio" }

/-- A freshly initialized state with base image `base.png`. -/
def sBase : AppState := handleModelFinalized "base.png" sEmpty

/-- A state with the base layer plus one applied garment, cursor on the
garment layer. -/
def sTwo : AppState :=
  { sBase with
      outfitHistory :=
        [ { garment := none, poseImages := [(poseKeyAt 0, "base.png")] }
        , { garment := some gShirt, poseImages := [(poseKeyAt 0, "shirt.png")] } ]
    , currentOutfitIndex := 1
    , wardrobe := [gShirt] }

/-- A two-garment snapshot fixture. -/
def outfitCE : SavedOutfit :=
  { id := "1", name := "Outfit 1", thumbnailUrl := "t.png"
  , layers := [none, some gShirt, some gJacket] }

/-- Service behaviour whose first call succeeds and whose second fails. -/
def svcFailSecond : Nat → Option String :=
  fun i => if i = 0 then some "r0.png" else none

/-- A state whose active background is not the default. -/
def sCity : AppState := { sTwo with currentBackgroundId := "city-street" }

/-! ### Helper lemmas -/

/-- The early-return guard of `handleGarmentSelect` is not taken when a
display image exists and no mutation is in flight; with a matching next
layer the redo fast path is taken. -/
theorem garmentSelect_fastPath (s : AppState) (g : WardrobeItem) (svc : Option String)
    (nl : OutfitLayer)
    (hT : jsTruthy (displayImageUrl s) = true)
    (hBusy : s.isLoading = false)
    (hNext : s.outfitHistory[s.currentOutfitIndex + 1]? = some nl)
    (hSame : nl.garment.map (fun w => w.id) = some g.id) :
    handleGarmentSelect g svc s
      = ({ s with currentOutfitIndex := s.currentOutfitIndex + 1, currentPoseIndex := 0 }, 0) := by
  simp [handleGarmentSelect, hT, hBusy, hNext, hSame]

/-- Without a matching next layer, `handleGarmentSelect` runs the slow path. -/
theorem garmentSelect_slowPath (s : AppState) (g : WardrobeItem) (svc : Option String)
    (hT : jsTruthy (displayImageUrl s) = true)
    (hBusy : s.isLoading = false)
    (hNoRedo : ∀ nl, s.outfitHistory[s.currentOutfitIndex + 1]? = some nl →
        ¬ nl.garment.map (fun w => w.id) = some g.id) :
    handleGarmentSelect g svc s = handleGarmentSelectSlow g svc s := by
  unfold handleGarmentSelect
  rw [hT, hBusy]
  simp only [not_true_eq_false, false_or, if_false]
  cases hNL : s.outfitHistory[s.currentOutfitIndex + 1]? with
  | none => rfl
  | some nl => simp [hNoRedo nl hNL]

/-- When the re-application loop of `handleLoadOutfit` fails, the post-state
keeps the previous history, cursor and pose index: only the error and
loading cells change, plus the background id which stays at the default it
was optimistically reset to. -/
theorem loadOutfit_failure_state (s : AppState) (outfit : SavedOutfit)
    (svc : Nat → Option String)
    (hBusy : s.isLoading = false)
    (hModel : jsTruthy s.modelImageUrl = true)
    (hFail : (loadOutfitLoop svc (outfit.layers.filterMap id) 0
        [{ garment := none, poseImages := [(poseKeyAt 0, s.modelImageUrl.getD "")] }]
        (s.modelImageUrl.getD "")).1 = none) :
    (handleLoadOutfit outfit svc s).1
      = { s with
            error := some "Failed to load outfit"
          , isLoading := false
          , loadingMessage := ""
          , currentBackgroundId := ((defaultBackgrounds[0]?).map (fun bg => bg.id)).getD "" } := by
  rcases hL : loadOutfitLoop svc (outfit.layers.filterMap id) 0
      [{ garment := none, poseImages := [(poseKeyAt 0, s.modelImageUrl.getD "")] }]
      (s.modelImageUrl.getD "") with ⟨o, n⟩
  rw [hL] at hFail
  simp only at hFail
  subst hFail
  simp [handleLoadOutfit, hBusy, hModel, hL]

/-- `List.all` is unchanged by `set` at an index whose old and new elements
agree on the tested predicate. -/
theorem all_set_congr {α : Type} (p : α → Bool) :
    ∀ (xs : List α) (j : Nat) (a b : α), xs[j]? = some a → p b = p a →
      (xs.set j b).all p = xs.all p
  | [], j, a, b, h, _ => by simp at h
  | x :: xs, 0, a, b, h, hp => by
      simp only [List.getElem?_cons_zero, Option.some.injEq] at h
      subst h
      simp [List.set, hp]
  | x :: xs, j + 1, a, b, h, hp => by
      simp only [List.getElem?_cons_succ] at h
      simp [List.set, all_set_congr p xs j a b h hp]

/-- `histWF` is unchanged by replacing a layer with one carrying the same
garment (only its pose cache differs). -/
theorem histWF_set (hist : List OutfitLayer) (i : Nat) (l l' : OutfitLayer)
    (h : hist[i]? = some l) (hg : l'.garment = l.garment) :
    histWF (hist.set i l') = histWF hist := by
  cases hist with
  | nil => simp at h
  | cons l0 rest =>
    cases i with
    | zero =>
      simp only [List.getElem?_cons_zero, Option.some.injEq] at h
      subst h
      simp [histWF, List.set, hg]
    | succ j =>
      simp only [List.getElem?_cons_succ] at h
      have hc := all_set_congr (fun l => l.garment.isSome) rest j l l' h
        (by show l'.garment.isSome = l.garment.isSome; rw [hg])
      simp [histWF, List.set, hc]

/-- Truncating a well-formed history anywhere after its base layer and
appending a garment-carrying layer keeps it well-formed. -/
theorem histWF_take_append (hist : List OutfitLayer) (c : Nat) (l : OutfitLayer)
    (hWF : histWF hist = true) (hg : l.garment.isSome = true) :
    histWF (hist.take (c + 1) ++ [l]) = true := by
  cases hist with
  | nil => simp [histWF] at hWF
  | cons l0 rest =>
    rw [List.take_succ_cons]
    simp only [List.cons_append, histWF, Bool.and_eq_true, List.all_append,
      List.all_cons, List.all_nil, Bool.and_true] at hWF ⊢
    obtain ⟨h0, hall⟩ := hWF
    refine ⟨h0, ?_, hg⟩
    rw [List.all_eq_true] at hall ⊢
    intro x hx
    exact hall x (List.mem_of_mem_take hx)

/-- A successful run of the re-application loop only ever appends layers
that carry a garment. -/
theorem loadOutfitLoop_some_structure (svc : Nat → Option String) :
    ∀ (gs : List WardrobeItem) (i : Nat) (acc : List OutfitLayer) (cur : String)
      (res : List OutfitLayer) (n : Nat),
      loadOutfitLoop svc gs i acc cur = (some res, n) →
      ∃ tail, res = acc ++ tail ∧ tail.all (fun l => l.garment.isSome) = true
  | [], i, acc, cur, res, n, h => by
      simp only [loadOutfitLoop, Prod.mk.injEq, Option.some.injEq] at h
      exact ⟨[], by simp [h.1], rfl⟩
  | g :: gs, i, acc, cur, res, n, h => by
      rw [loadOutfitLoop] at h
      cases hs : svc i with
      | some u =>
          rw [hs] at h
          obtain ⟨tail, ht, hall⟩ :=
            loadOutfitLoop_some_structure svc gs (i + 1) _ u res n h
          refine ⟨{ garment := some g, poseImages := [(poseKeyAt 0, u)] } :: tail, ?_, ?_⟩
          · rw [ht]; simp
          · simp [hall]
      | none => rw [hs] at h; simp at h

/-- When every service call succeeds, the re-application loop succeeds and
its resulting garment sequence is the accumulator's followed by the
requested garments. -/
theorem loadOutfitLoop_allSome (svc : Nat → Option String)
    (hAll : ∀ j, (svc j).isSome = true) :
    ∀ (gs : List WardrobeItem) (i : Nat) (acc : List OutfitLayer) (cur : String),
      ∃ res n, loadOutfitLoop svc gs i acc cur = (some res, n)
        ∧ res.map (fun l => l.garment) = acc.map (fun l => l.garment) ++ gs.map some
  | [], i, acc, cur => ⟨acc, i, by simp [loadOutfitLoop]⟩
  | g :: gs, i, acc, cur => by
      obtain ⟨u, hu⟩ := Option.isSome_iff_exists.mp (hAll i)
      obtain ⟨res, n, hEq, hMap⟩ := loadOutfitLoop_allSome svc hAll gs (i + 1)
        (acc ++ [{ garment := some g, poseImages := [(poseKeyAt 0, u)] }]) u
      refine ⟨res, n, ?_, ?_⟩
      · rw [loadOutfitLoop, hu]; exact hEq
      · rw [hMap]; simp

/-- Re-wrapping the kept elements of `filterMap id` recovers a list that is
all `some`. -/
theorem filterMap_id_map_some {α : Type} :
    ∀ (l : List (Option α)), (∀ x ∈ l, x.isSome = true) →
      (l.filterMap id).map some = l
  | [], _ => rfl
  | x :: xs, h => by
      obtain ⟨a, ha⟩ := Option.isSome_iff_exists.mp (h x (List.mem_cons_self x xs))
      subst ha
      simpa [List.filterMap_cons] using
        filterMap_id_map_some xs (fun y hy => h y (List.mem_cons_of_mem _ hy))

/-! ### Invariant preservation -/

/-- `initialize` establishes the invariant. -/
theorem inv_modelFinalized (url : String) (s : AppState) :
    Inv (handleModelFinalized url s) := by
  constructor
  · simp [handleModelFinalized]
  · simp [handleModelFinalized, histWF]

/-- The `applyGarment` slow path preserves the invariant. -/
theorem inv_applyGarmentSlow (g : WardrobeItem) (svc : Option String) (s : AppState)
    (h : Inv s) : Inv (handleGarmentSelectSlow g svc s).1 := by
  obtain ⟨hlt, hWF⟩ := h
  cases svc with
  | none => exact ⟨hlt, hWF⟩
  | some url =>
      constructor
      · have hmin : min (s.currentOutfitIndex + 1) s.outfitHistory.length
            = s.currentOutfitIndex + 1 := Nat.min_eq_left (by omega)
        simp [handleGarmentSelectSlow, List.length_take, hmin]
      · exact histWF_take_append s.outfitHistory s.currentOutfitIndex _ hWF rfl

/-- `applyGarment` preserves the invariant. -/
theorem inv_applyGarment (g : WardrobeItem) (svc : Option String) (s : AppState)
    (h : Inv s) : Inv (handleGarmentSelect g svc s).1 := by
  obtain ⟨hlt, hWF⟩ := h
  unfold handleGarmentSelect
  split
  · exact ⟨hlt, hWF⟩
  cases hNL : s.outfitHistory[s.currentOutfitIndex + 1]? with
  | some nl =>
      dsimp only
      by_cases hid : nl.garment.map (fun w => w.id) = some g.id
      · rw [if_pos hid]
        obtain ⟨h2, -⟩ := List.getElem?_eq_some.mp hNL
        exact ⟨h2, hWF⟩
      · rw [if_neg hid]
        exact inv_applyGarmentSlow g svc s ⟨hlt, hWF⟩
  | none => exact inv_applyGarmentSlow g svc s ⟨hlt, hWF⟩

/-- `removeLastGarment` preserves the invariant. -/
theorem inv_removeLast (s : AppState) (h : Inv s) : Inv (handleRemoveLastGarment s) := by
  obtain ⟨hlt, hWF⟩ := h
  unfold handleRemoveLastGarment
  split
  · refine ⟨?_, hWF⟩
    show s.currentOutfitIndex - 1 < s.outfitHistory.length
    omega
  · exact ⟨hlt, hWF⟩

/-- `selectPose` preserves the invariant. -/
theorem inv_poseSelect (newIndex : Nat) (svc : Option String) (s : AppState)
    (h : Inv s) : Inv (handlePoseSelect newIndex svc s).1 := by
  obtain ⟨hlt, hWF⟩ := h
  unfold handlePoseSelect
  split
  · exact ⟨hlt, hWF⟩
  cases hCL : s.outfitHistory[s.currentOutfitIndex]? with
  | none => exact ⟨hlt, hWF⟩
  | some layer =>
      dsimp only
      by_cases hHit : jsTruthy (recordGet layer.poseImages (poseKeyAt newIndex)) = true
      · rw [if_pos hHit]
        exact ⟨hlt, hWF⟩
      · rw [if_neg hHit]
        by_cases hBase : jsTruthy (recordValues layer.poseImages).head? = true
        · rw [if_neg (not_not_intro hBase)]
          cases svc with
          | some u =>
              refine ⟨?_, ?_⟩
              · show s.currentOutfitIndex < (s.outfitHistory.set s.currentOutfitIndex _).length
                simpa [List.length_set] using hlt
              · show histWF (s.outfitHistory.set s.currentOutfitIndex
                    { garment := layer.garment
                    , poseImages := recordSet layer.poseImages (poseKeyAt newIndex) u }) = true
                rw [histWF_set s.outfitHistory s.currentOutfitIndex layer
                  { garment := layer.garment
                  , poseImages := recordSet layer.poseImages (poseKeyAt newIndex) u } hCL rfl]
                exact hWF
          | none => exact ⟨hlt, hWF⟩
        · rw [if_pos hBase]
          exact ⟨hlt, hWF⟩

/-- `changeBackground` preserves the invariant. -/
theorem inv_bgChange (bgId : String) (svc : Option String) (s : AppState)
    (h : Inv s) : Inv (handleBackgroundChange bgId svc s).1 := by
  obtain ⟨hlt, hWF⟩ := h
  unfold handleBackgroundChange
  split
  · exact ⟨hlt, hWF⟩
  cases hCL : s.outfitHistory[s.currentOutfitIndex]? with
  | none => exact ⟨hlt, hWF⟩
  | some layer =>
      dsimp only
      by_cases hBase : jsTruthy (bgBaseImage layer s.currentPoseIndex) = true
      · rw [if_neg (not_not_intro hBase)]
        cases svc with
        | some u =>
            refine ⟨?_, ?_⟩
            · show s.currentOutfitIndex < (s.outfitHistory.set s.currentOutfitIndex _).length
              simpa [List.length_set] using hlt
            · show histWF (s.outfitHistory.set s.currentOutfitIndex
                  { garment := layer.garment
                  , poseImages := [(poseKeyAt s.currentPoseIndex, u)] }) = true
              rw [histWF_set s.outfitHistory s.currentOutfitIndex layer
                { garment := layer.garment
                , poseImages := [(poseKeyAt s.currentPoseIndex, u)] } hCL rfl]
              exact hWF
        | none => exact ⟨hlt, hWF⟩
      · rw [if_pos hBase]
        exact ⟨hlt, hWF⟩

/-- `saveSnapshot` preserves the invariant. -/
theorem inv_save (newId : String) (s : AppState) (h : Inv s) :
    Inv (handleSaveOutfit newId s) := by
  obtain ⟨hlt, hWF⟩ := h
  unfold handleSaveOutfit
  split
  · exact ⟨hlt, hWF⟩
  · exact ⟨hlt, hWF⟩

/-- `deleteSnapshot` preserves the invariant. -/
theorem inv_delete (idToDelete : String) (s : AppState) (h : Inv s) :
    Inv (handleDeleteOutfit idToDelete s) := by
  obtain ⟨hlt, hWF⟩ := h
  exact ⟨hlt, hWF⟩

/-- `loadSnapshot` preserves the invariant. -/
theorem inv_load (outfit : SavedOutfit) (svc : Nat → Option String) (s : AppState)
    (h : Inv s) : Inv (handleLoadOutfit outfit svc s).1 := by
  obtain ⟨hlt, hWF⟩ := h
  unfold handleLoadOutfit
  split
  · exact ⟨hlt, hWF⟩
  dsimp only
  split
  · rename_i newHistory calls heq
    obtain ⟨tail, ht, hall⟩ :=
      loadOutfitLoop_some_structure svc _ _ _ _ newHistory calls heq
    subst ht
    constructor
    · simp
    · simpa [histWF] using hall
  · exact ⟨hlt, hWF⟩

/-- Every operation preserves the invariant. -/
theorem inv_step (o : Op) (s : AppState) (h : Inv s) : Inv (step o s) := by
  cases o with
  | modelFinalized url => exact inv_modelFinalized url s
  | applyGarment g svc => exact inv_applyGarment g svc s h
  | removeLastGarment => exact inv_removeLast s h
  | selectPose i svc => exact inv_poseSelect i svc s h
  | changeBackground b svc => exact inv_bgChange b svc s h
  | saveSnapshot i => exact inv_save i s h
  | deleteSnapshot i => exact inv_delete i s h
  | loadSnapshot o svc => exact inv_load o svc s h

/-- Every reachable state satisfies the invariant. -/
theorem reachable_inv (s : AppState) (h : Reachable s) : Inv s := by
  induction h with
  | init s url => exact inv_modelFinalized url s
  | step o s h ih => exact inv_step o s ih

/-! ### Claim theorems -/

/-- C9 (counterexample): `initialize` does not reset the active pose index:
run from a state whose `currentPoseIndex` is 2, `handleModelFinalized`
leaves it at 2, contradicting the claim that it sets activePoseIndex = 0. -/
theorem c9_counterexample :
    ¬ (handleModelFinalized "base2.png" { sBase with currentPoseIndex := 2 }).currentPoseIndex = 0 := by
  decide

/-- C9 (amended): `initialize(baseImage)` resets the history to the single
layer with garment `none` and the base image under the first pose key,
sets the cursor to 0 and always succeeds (it is a total function), but it
leaves `activePoseIndex` unchanged rather than setting it to 0. -/
theorem c9_reset_behaviour (s : AppState) (url : String) :
    (handleModelFinalized url s).outfitHistory
        = [{ garment := none, poseImages := [(poseKeyAt 0, url)] }]
      ∧ (handleModelFinalized url s).currentOutfitIndex = 0
      ∧ (handleModelFinalized url s).currentPoseIndex = s.currentPoseIndex :=
  ⟨rfl, rfl, rfl⟩

/-- C7: when the active layer's pose map holds a (non-empty, hence JS-truthy)
image for the target pose key, `selectPose` performs no service call and
only sets `activePoseIndex` to the new value. -/
theorem c7_selectPose_cache_hit (s : AppState) (newIndex : Nat) (svc : Option String)
    (layer : OutfitLayer)
    (hBusy : s.isLoading = false)
    (hLayer : s.outfitHistory[s.currentOutfitIndex]? = some layer)
    (hHit : jsTruthy (recordGet layer.poseImages (poseKeyAt newIndex)) = true) :
    handlePoseSelect newIndex svc s = ({ s with currentPoseIndex := newIndex }, 0) := by
  have hne : s.outfitHistory.isEmpty = false := by
    cases hh : s.outfitHistory with
    | nil => rw [hh] at hLayer; simp at hLayer
    | cons a l => simp [hh]
  by_cases hEq : newIndex = s.currentPoseIndex
  · subst hEq
    simp [handlePoseSelect, hBusy, hne]
    rw [← hBusy]
  · simp [handlePoseSelect, hBusy, hne, hEq, hLayer, hHit]

/-- C7 (witness): concrete cache hit on the two-layer fixture. -/
theorem c7_witness :
    handlePoseSelect 0 (some "unused.png") { sTwo with currentPoseIndex := 3 }
      = ({ sTwo with currentPoseIndex := 0 }, 0) := by
  have h := c7_selectPose_cache_hit { sTwo with currentPoseIndex := 3 } 0 (some "unused.png")
    { garment := some gShirt, poseImages := [(poseKeyAt 0, "shirt.png")] }
    (by decide) (by decide) (by decide)
  exact h

/-- C3: an accepted `changeBackground` whose synthesis call succeeds resets
the active layer's pose map to exactly one entry: the active pose key
mapped to the freshly rendered image; all other cached poses are gone. -/
theorem c3_background_invalidates_pose_cache (s : AppState)
    (newBackgroundId url : String) (layer : OutfitLayer)
    (hFound : (defaultBackgrounds.find? (fun bg => bg.id == newBackgroundId)).isSome = true)
    (hBusy : s.isLoading = false)
    (hDiff : ¬ s.currentBackgroundId = newBackgroundId)
    (hLayer : s.outfitHistory[s.currentOutfitIndex]? = some layer)
    (hBase : jsTruthy (bgBaseImage layer s.currentPoseIndex) = true) :
    ((handleBackgroundChange newBackgroundId (some url) s).1.outfitHistory[s.currentOutfitIndex]?).map
          (fun l => l.poseImages)
        = some [(poseKeyAt s.currentPoseIndex, url)]
      ∧ (handleBackgroundChange newBackgroundId (some url) s).1.currentBackgroundId
          = newBackgroundId := by
  have hNone : (defaultBackgrounds.find? (fun bg => bg.id == newBackgroundId)).isNone = false := by
    cases hOpt : defaultBackgrounds.find? (fun bg => bg.id == newBackgroundId) with
    | none => rw [hOpt] at hFound; simp at hFound
    | some bg => simp
  have hne : s.outfitHistory.isEmpty = false := by
    cases hh : s.outfitHistory with
    | nil => rw [hh] at hLayer; simp at hLayer
    | cons a l => simp [hh]
  obtain ⟨hlt, -⟩ := List.getElem?_eq_some.mp hLayer
  constructor
  · simp [handleBackgroundChange, hNone, hBusy, hDiff, hne, hLayer, hBase,
      List.getElem?_set_self hlt]
  · simp [handleBackgroundChange, hNone, hBusy, hDiff, hne, hLayer, hBase]

/-- C3 (witness): concrete successful background change on the two-layer
fixture. -/
theorem c3_witness :
    (((handleBackgroundChange "city-street" (some "city.png") sTwo).1.outfitHistory[sTwo.currentOutfitIndex]?).map
          (fun l => l.poseImages)
        = some [(poseKeyAt sTwo.currentPoseIndex, "city.png")])
      ∧ (handleBackgroundChange "city-street" (some "city.png") sTwo).1.currentBackgroundId
          = "city-street" :=
  c3_background_invalidates_pose_cache sTwo "city-street" "city.png"
    { garment := some gShirt, poseImages := [(poseKeyAt 0, "shirt.png")] }
    (by decide) (by decide) (by decide) (by decide) (by decide)

/-- C6: when `applyGarment` takes the slow path and the synthesis call
fails, nothing changes except that the busy flag ends cleared, the loading
message is cleared and a human-readable failure reason is surfaced:
history, cursor, active pose index, wardrobe, saved outfits, background
and model image are all untouched. -/
theorem c6_applyGarment_failure_atomic (s : AppState) (g : WardrobeItem)
    (hT : jsTruthy (displayImageUrl s) = true)
    (hBusy : s.isLoading = false)
    (hNoRedo : ∀ nl, s.outfitHistory[s.currentOutfitIndex + 1]? = some nl →
        ¬ nl.garment.map (fun w => w.id) = some g.id) :
    handleGarmentSelect g none s
        = ({ s with
              error := some "Failed to apply garment"
            , isLoading := false
            , loadingMessage := "" }, 1)
      ∧ (handleGarmentSelect g none s).1.outfitHistory = s.outfitHistory
      ∧ (handleGarmentSelect g none s).1.currentOutfitIndex = s.currentOutfitIndex
      ∧ (handleGarmentSelect g none s).1.currentPoseIndex = s.currentPoseIndex
      ∧ (handleGarmentSelect g none s).1.wardrobe = s.wardrobe
      ∧ (handleGarmentSelect g none s).1.isLoading = false
      ∧ (handleGarmentSelect g none s).1.error.isSome = true := by
  have h := garmentSelect_slowPath s g none hT hBusy hNoRedo
  rw [h]
  exact ⟨rfl, rfl, rfl, rfl, rfl, rfl, rfl⟩

/-- C6 (witness): concrete failing slow-path application on the two-layer
fixture (the jacket does not match any layer after the cursor). -/
theorem c6_witness :
    handleGarmentSelect gJacket none sTwo
      = ({ sTwo with
            error := some "Failed to apply garment"
          , isLoading := false
          , loadingMessage := "" }, 1) :=
  (c6_applyGarment_failure_atomic sTwo gJacket (by decide) (by decide)
    (by intro nl hNL; rw [show sTwo.outfitHistory[sTwo.currentOutfitIndex + 1]? = none by decide] at hNL; cases hNL)).1

/-- C4: the redo fast path: when the layer just after the cursor carries the
selected garment's id, `applyGarment` advances the cursor by one, resets
the active pose index to 0, performs no service call and leaves the history
sequence unchanged; consequently `removeLastGarment` (which decrements the
cursor without truncating) followed by re-applying the garment of the layer
that was active reuses the existing layer: the history is unchanged and the
cursor is back where it started. -/
theorem c4_redo_fast_path (s : AppState) (g : WardrobeItem) (svc : Option String)
    (nl : OutfitLayer)
    (hT : jsTruthy (displayImageUrl s) = true)
    (hBusy : s.isLoading = false)
    (hNext : s.outfitHistory[s.currentOutfitIndex + 1]? = some nl)
    (hSame : nl.garment.map (fun w => w.id) = some g.id) :
    handleGarmentSelect g svc s
        = ({ s with currentOutfitIndex := s.currentOutfitIndex + 1, currentPoseIndex := 0 }, 0)
      ∧ (∀ (s2 : AppState) (g2 : WardrobeItem) (svc2 : Option String) (l2 : OutfitLayer),
          0 < s2.currentOutfitIndex → s2.isLoading = false →
          s2.outfitHistory[s2.currentOutfitIndex]? = some l2 →
          l2.garment.map (fun w => w.id) = some g2.id →
          jsTruthy (displayImageUrl (handleRemoveLastGarment s2)) = true →
          handleGarmentSelect g2 svc2 (handleRemoveLastGarment s2)
            = ({ s2 with currentPoseIndex := 0 }, 0)) := by
  constructor
  · exact garmentSelect_fastPath s g svc nl hT hBusy hNext hSame
  · intro s2 g2 svc2 l2 hPos hBusy2 hCur hSame2 hT2
    have hRem : handleRemoveLastGarment s2
        = { s2 with currentOutfitIndex := s2.currentOutfitIndex - 1, currentPoseIndex := 0 } := by
      simp [handleRemoveLastGarment, hPos]
    have hIdx : s2.currentOutfitIndex - 1 + 1 = s2.currentOutfitIndex :=
      Nat.succ_pred_eq_of_pos hPos
    have hNext2 : (handleRemoveLastGarment s2).outfitHistory[(handleRemoveLastGarment s2).currentOutfitIndex + 1]?
        = some l2 := by
      rw [hRem]
      show s2.outfitHistory[s2.currentOutfitIndex - 1 + 1]? = some l2
      rw [hIdx]; exact hCur
    have hBusy2' : (handleRemoveLastGarment s2).isLoading = false := by
      rw [hRem]; exact hBusy2
    have h := garmentSelect_fastPath (handleRemoveLastGarment s2) g2 svc2 l2 hT2 hBusy2' hNext2 hSame2
    rw [h, hRem]
    show ({ s2 with currentOutfitIndex := s2.currentOutfitIndex - 1 + 1, currentPoseIndex := 0 }, 0)
        = ({ s2 with currentPoseIndex := 0 }, 0)
    rw [hIdx]

/-- C4 (witness): on the two-layer fixture with the cursor moved back to the
base layer, re-selecting the shirt is a pure cursor advance; and the
remove-then-reapply round trip on the fixture itself leaves the history
untouched and restores the cursor. -/
theorem c4_witness :
    (handleGarmentSelect gShirt none { sTwo with currentOutfitIndex := 0 }
        = ({ sTwo with currentOutfitIndex := 0 + 1, currentPoseIndex := 0 }, 0))
      ∧ handleGarmentSelect gShirt none (handleRemoveLastGarment sTwo)
          = ({ sTwo with currentPoseIndex := 0 }, 0) := by
  have h := c4_redo_fast_path { sTwo with currentOutfitIndex := 0 } gShirt none
    { garment := some gShirt, poseImages := [(poseKeyAt 0, "shirt.png")] }
    (by decide) (by decide) (by decide) (by decide)
  refine ⟨h.1, ?_⟩
  exact h.2 sTwo gShirt none
    { garment := some gShirt, poseImages := [(poseKeyAt 0, "shirt.png")] }
    (by decide) (by decide) (by decide) (by decide) (by decide)

/-- C10: `loadSnapshot` never touches the wardrobe catalog, whatever the
snapshot, service outcomes or starting state (so re-applied garments are
not registered even when absent from the wardrobe); in contrast the
`applyGarment` slow path appends a garment unseen in the wardrobe on
success. -/
theorem c10_load_wardrobe_frame :
    (∀ (s : AppState) (outfit : SavedOutfit) (svc : Nat → Option String),
        (handleLoadOutfit outfit svc s).1.wardrobe = s.wardrobe)
      ∧ (∀ (s : AppState) (g : WardrobeItem) (url : String),
          jsTruthy (displayImageUrl s) = true → s.isLoading = false →
          (∀ nl, s.outfitHistory[s.currentOutfitIndex + 1]? = some nl →
              ¬ nl.garment.map (fun w => w.id) = some g.id) →
          s.wardrobe.find? (fun item => item.id == g.id) = none →
          (handleGarmentSelect g (some url) s).1.wardrobe = s.wardrobe ++ [g]) := by
  constructor
  · intro s outfit svc
    unfold handleLoadOutfit
    split
    · rfl
    · dsimp only
      split <;> rfl
  · intro s g url hT hBusy hNoRedo hUnseen
    rw [garmentSelect_slowPath s g (some url) hT hBusy hNoRedo]
    simp [handleGarmentSelectSlow, hUnseen]

/-- C10 (witness): loading the two-garment snapshot (the jacket is absent
from the fixture's wardrobe) leaves the wardrobe unchanged, while applying
the jacket through the slow path appends it. -/
theorem c10_witness :
    ((handleLoadOutfit outfitCE (fun _ => some "re.png") sTwo).1.wardrobe = sTwo.wardrobe)
      ∧ (handleGarmentSelect gJacket (some "j.png") sTwo).1.wardrobe = sTwo.wardrobe ++ [gJacket] := by
  refine ⟨c10_load_wardrobe_frame.1 sTwo outfitCE (fun _ => some "re.png"), ?_⟩
  exact c10_load_wardrobe_frame.2 sTwo gJacket "j.png" (by decide) (by decide)
    (by intro nl hNL; rw [show sTwo.outfitHistory[sTwo.currentOutfitIndex + 1]? = none by decide] at hNL; cases hNL)
    (by decide)

/-- C2 (counterexample): at a concrete partial failure of `loadSnapshot`
(the first render succeeds, the second fails — witnessed by the surfaced
error), the history observable after the operation is the previous history,
exactly preserved — not partially rebuilt, contradicting the claim that the
previous history is neither preserved nor restored. -/
theorem c2_counterexample :
    (handleLoadOutfit outfitCE svcFailSecond sTwo).1.outfitHistory = sTwo.outfitHistory
      ∧ (handleLoadOutfit outfitCE svcFailSecond sTwo).1.error.isSome = true := by
  decide

/-- C2 (amended): if `loadSnapshot` fails partway through its sequential
re-application, the previous history, cursor and active pose index are
preserved unchanged: the rebuilt history lives in a local buffer that is
committed only when every render succeeds.  Only the error and loading
cells change, plus the background id which keeps its optimistic reset to
the default. -/
theorem c2_load_failure_preserves_history (s : AppState) (outfit : SavedOutfit)
    (svc : Nat → Option String)
    (hBusy : s.isLoading = false)
    (hModel : jsTruthy s.modelImageUrl = true)
    (hFail : (loadOutfitLoop svc (outfit.layers.filterMap id) 0
        [{ garment := none, poseImages := [(poseKeyAt 0, s.modelImageUrl.getD "")] }]
        (s.modelImageUrl.getD "")).1 = none) :
    (handleLoadOutfit outfit svc s).1.outfitHistory = s.outfitHistory
      ∧ (handleLoadOutfit outfit svc s).1.currentOutfitIndex = s.currentOutfitIndex
      ∧ (handleLoadOutfit outfit svc s).1.currentPoseIndex = s.currentPoseIndex
      ∧ (handleLoadOutfit outfit svc s).1.isLoading = false
      ∧ (handleLoadOutfit outfit svc s).1.error.isSome = true := by
  rw [loadOutfit_failure_state s outfit svc hBusy hModel hFail]
  exact ⟨rfl, rfl, rfl, rfl, rfl⟩

/-- C2 (amended, witness): concrete partial failure on the two-layer
fixture. -/
theorem c2_witness :
    (handleLoadOutfit outfitCE svcFailSecond sTwo).1.currentOutfitIndex = sTwo.currentOutfitIndex
      ∧ (handleLoadOutfit outfitCE svcFailSecond sTwo).1.isLoading = false :=
  ⟨(c2_load_failure_preserves_history sTwo outfitCE svcFailSecond
      (by decide) (by decide) (by decide)).2.1,
   (c2_load_failure_preserves_history sTwo outfitCE svcFailSecond
      (by decide) (by decide) (by decide)).2.2.2.1⟩

/-- C5 (counterexample): `loadSnapshot`'s optimistic reset of the active
background to the default is NOT rolled back when the service call fails:
starting from background `city-street`, a failing load surfaces an error
yet leaves the background at the default instead of restoring
`city-street`, contradicting the claim that every operation rolls its
optimistic update back on failure. -/
theorem c5_counterexample :
    (handleLoadOutfit outfitCE (fun _ => none) sCity).1.error.isSome = true
      ∧ ¬ (handleLoadOutfit outfitCE (fun _ => none) sCity).1.currentBackgroundId
            = sCity.currentBackgroundId := by
  decide

/-- C5 (amended): on a failed service call, `selectPose` and
`changeBackground` roll their optimistic updates back (the active pose
index and background id end unchanged), clear the busy flag and surface a
human-readable message; `loadSnapshot` also clears the busy flag and
surfaces a message, but its optimistic reset of the background to the
default is kept, not rolled back. -/
theorem c5_rollback_on_failure :
    (∀ (s : AppState) (newIndex : Nat) (layer : OutfitLayer),
        s.isLoading = false →
        s.outfitHistory[s.currentOutfitIndex]? = some layer →
        ¬ newIndex = s.currentPoseIndex →
        jsTruthy (recordGet layer.poseImages (poseKeyAt newIndex)) = false →
        jsTruthy (recordValues layer.poseImages).head? = true →
        handlePoseSelect newIndex none s
          = ({ s with
                error := some "Failed to change pose"
              , isLoading := false
              , loadingMessage := "" }, 1))
      ∧ (∀ (s : AppState) (bgId : String) (layer : OutfitLayer),
          (defaultBackgrounds.find? (fun bg => bg.id == bgId)).isSome = true →
          s.isLoading = false →
          ¬ s.currentBackgroundId = bgId →
          s.outfitHistory[s.currentOutfitIndex]? = some layer →
          jsTruthy (bgBaseImage layer s.currentPoseIndex) = true →
          handleBackgroundChange bgId none s
            = ({ s with
                  error := some "Failed to change background"
                , isLoading := false
                , loadingMessage := "" }, 1))
      ∧ (∀ (s : AppState) (outfit : SavedOutfit) (svc : Nat → Option String),
          s.isLoading = false →
          jsTruthy s.modelImageUrl = true →
          (loadOutfitLoop svc (outfit.layers.filterMap id) 0
              [{ garment := none, poseImages := [(poseKeyAt 0, s.modelImageUrl.getD "")] }]
              (s.modelImageUrl.getD "")).1 = none →
          (handleLoadOutfit outfit svc s).1.currentBackgroundId
              = ((defaultBackgrounds[0]?).map (fun bg => bg.id)).getD ""
            ∧ (handleLoadOutfit outfit svc s).1.isLoading = false
            ∧ (handleLoadOutfit outfit svc s).1.error.isSome = true) := by
  refine ⟨?_, ?_, ?_⟩
  · intro s newIndex layer hBusy hLayer hNe hMiss hBase
    have hne : s.outfitHistory.isEmpty = false := by
      cases hh : s.outfitHistory with
      | nil => rw [hh] at hLayer; simp at hLayer
      | cons a l => simp [hh]
    simp [handlePoseSelect, hBusy, hne, hNe, hLayer, hMiss, hBase]
  · intro s bgId layer hFound hBusy hDiff hLayer hBase
    have hNone : (defaultBackgrounds.find? (fun bg => bg.id == bgId)).isNone = false := by
      cases hOpt : defaultBackgrounds.find? (fun bg => bg.id == bgId) with
      | none => rw [hOpt] at hFound; simp at hFound
      | some bg => simp
    have hne : s.outfitHistory.isEmpty = false := by
      cases hh : s.outfitHistory with
      | nil => rw [hh] at hLayer; simp at hLayer
      | cons a l => simp [hh]
    simp [handleBackgroundChange, hNone, hBusy, hDiff, hne, hLayer, hBase]
  · intro s outfit svc hBusy hModel hFail
    rw [loadOutfit_failure_state s outfit svc hBusy hModel hFail]
    exact ⟨rfl, rfl, rfl⟩

/-- C5 (amended, witness): the three failure behaviours at concrete inputs
on the fixtures. -/
theorem c5_witness :
    (handlePoseSelect 2 none sTwo
        = ({ sTwo with
              error := some "Failed to change pose"
            , isLoading := false
            , loadingMessage := "" }, 1))
      ∧ (handleBackgroundChange "city-street" none sTwo
          = ({ sTwo with
                error := some "Failed to change background"
              , isLoading := false
              , loadingMessage := "" }, 1))
      ∧ (handleLoadOutfit outfitCE (fun _ => none) sCity).1.currentBackgroundId
          = ((defaultBackgrounds[0]?).map (fun bg => bg.id)).getD "" := by
  refine ⟨?_, ?_, ?_⟩
  · exact c5_rollback_on_failure.1 sTwo 2
      { garment := some gShirt, poseImages := [(poseKeyAt 0, "shirt.png")] }
      (by decide) (by decide) (by decide) (by decide) (by decide)
  · exact c5_rollback_on_failure.2.1 sTwo "city-street"
      { garment := some gShirt, poseImages := [(poseKeyAt 0, "shirt.png")] }
      (by decide) (by decide) (by decide) (by decide) (by decide)
  · exact (c5_rollback_on_failure.2.2 sCity outfitCE (fun _ => none)
      (by decide) (by decide) (by decide)).1

/-- C1: every state reachable by any sequence of operations after
`initialize(baseImage)` has its cursor within the history
(`0 <= cursor < length(history)`) and a base layer whose garment is
`none`. -/
theorem c1_reachable_invariant (s : AppState) (h : Reachable s) :
    0 ≤ s.currentOutfitIndex
      ∧ s.currentOutfitIndex < s.outfitHistory.length
      ∧ (s.outfitHistory.head?).map (fun l => l.garment) = some none := by
  obtain ⟨hlt, hWF⟩ := reachable_inv s h
  refine ⟨Nat.zero_le _, hlt, ?_⟩
  cases hh : s.outfitHistory with
  | nil => rw [hh] at hlt; simp at hlt
  | cons l0 rest =>
      rw [hh] at hWF
      simp only [histWF, Bool.and_eq_true] at hWF
      simp [Option.isNone_iff_eq_none.mp hWF.1]

/-- C1 (witness): the invariant at the concrete state produced by a single
`initialize`. -/
theorem c1_witness :
    0 ≤ sBase.currentOutfitIndex
      ∧ sBase.currentOutfitIndex < sBase.outfitHistory.length
      ∧ (sBase.outfitHistory.head?).map (fun l => l.garment) = some none :=
  c1_reachable_invariant sBase (Reachable.init sEmpty "base.png")

/-- After a fully successful `loadSnapshot`, the active garment sequence is
the base layer's `none` followed by the snapshot's non-null garments, in
order. -/
theorem load_success_garments (s : AppState) (snap : SavedOutfit)
    (svc : Nat → Option String)
    (hBusy : s.isLoading = false)
    (hModel : jsTruthy s.modelImageUrl = true)
    (hAll : ∀ j, (svc j).isSome = true) :
    (activeOutfitLayers (handleLoadOutfit snap svc s).1).map (fun l => l.garment)
      = none :: (snap.layers.filterMap id).map some := by
  obtain ⟨res, n, hEq, hMap⟩ := loadOutfitLoop_allSome svc hAll
    (snap.layers.filterMap id) 0
    [{ garment := none, poseImages := [(poseKeyAt 0, s.modelImageUrl.getD "")] }]
    (s.modelImageUrl.getD "")
  have hres : res.map (fun l => l.garment)
      = none :: (snap.layers.filterMap id).map some := by
    simpa using hMap
  have hlen : res ≠ [] := by
    intro hnil
    rw [hnil] at hres
    simp at hres
  have hPost : (handleLoadOutfit snap svc s).1
      = { s with
            error := none
          , isLoading := false
          , loadingMessage := ""
          , currentBackgroundId := ((defaultBackgrounds[0]?).map (fun bg => bg.id)).getD ""
          , outfitHistory := res
          , currentOutfitIndex := res.length - 1
          , currentPoseIndex := 0 } := by
    simp [handleLoadOutfit, hBusy, hModel, hEq]
  rw [hPost]
  show (res.take (res.length - 1 + 1)).map (fun l => l.garment) = _
  have hpos : 0 < res.length := List.length_pos.mpr hlen
  rw [show res.length - 1 + 1 = res.length from Nat.succ_pred_eq_of_pos hpos]
  rw [List.take_of_length_le (Nat.le_refl _)]
  exact hres

/-- C8: from any invariant-satisfying state with at least two active layers
and a valid display image, `saveSnapshot` followed by `loadSnapshot` of the
snapshot it produced (with every synthesis call succeeding) rebuilds a
history whose active garment sequence — layers 0 through the new cursor,
comparing garments only — equals the garment sequence that was active at
save time. -/
theorem c8_save_load_round_trip (s : AppState) (newId : String)
    (svc : Nat → Option String) (snap : SavedOutfit)
    (hInv : Inv s)
    (hTwo : 2 ≤ (activeOutfitLayers s).length)
    (hDisp : jsTruthy (displayImageUrl s) = true)
    (hBusy : s.isLoading = false)
    (hModel : jsTruthy s.modelImageUrl = true)
    (hAll : ∀ j, (svc j).isSome = true)
    (hSnap : (handleSaveOutfit newId s).savedOutfits.getLast? = some snap) :
    (activeOutfitLayers (handleLoadOutfit snap svc (handleSaveOutfit newId s)).1).map
        (fun l => l.garment)
      = (activeOutfitLayers s).map (fun l => l.garment) := by
  obtain ⟨hlt, hWF⟩ := hInv
  have hNotLe : ¬ (activeOutfitLayers s).length ≤ 1 := by omega
  have hs1 : handleSaveOutfit newId s
      = { s with
            savedOutfits := s.savedOutfits ++
              [{ id := newId
               , name := "Outfit " ++ toString (s.savedOutfits.length + 1)
               , thumbnailUrl := (displayImageUrl s).getD ""
               , layers := (activeOutfitLayers s).map (fun l => l.garment) }] } := by
    simp [handleSaveOutfit, hNotLe, hDisp]
  rw [hs1] at hSnap
  simp only [List.getLast?_concat, Option.some.injEq] at hSnap
  -- the garment sequence at save time: a leading `none` then only `some`s
  have hActive : ∃ t, (activeOutfitLayers s).map (fun l => l.garment) = none :: t
      ∧ ∀ x ∈ t, x.isSome = true := by
    cases hh : s.outfitHistory with
    | nil => rw [hh] at hlt; simp at hlt
    | cons l0 rest =>
        rw [hh] at hWF
        simp only [histWF, Bool.and_eq_true, List.all_eq_true] at hWF
        refine ⟨(rest.take s.currentOutfitIndex).map (fun l => l.garment), ?_, ?_⟩
        · rw [activeOutfitLayers, hh, List.take_succ_cons]
          simp [Option.isNone_iff_eq_none.mp hWF.1]
        · intro x hx
          obtain ⟨y, hy, hxy⟩ := List.mem_map.mp hx
          rw [← hxy]
          exact hWF.2 y (List.mem_of_mem_take hy)
  obtain ⟨t, hSeq, hSome⟩ := hActive
  have hLayers : snap.layers = none :: t := by rw [← hSnap, hSeq]
  have hBusy1 : (handleSaveOutfit newId s).isLoading = false := by rw [hs1]; exact hBusy
  have hModel1 : jsTruthy (handleSaveOutfit newId s).modelImageUrl = true := by
    rw [hs1]; exact hModel
  have hload := load_success_garments (handleSaveOutfit newId s) snap svc hBusy1 hModel1 hAll
  rw [hload, hSeq, hLayers]
  simp only [List.filterMap_cons, id_def]
  rw [filterMap_id_map_some t hSome]

/-- C8 (witness): concrete save-then-load round trip on the two-layer
fixture, every render succeeding. -/
theorem c8_witness :
    (activeOutfitLayers (handleLoadOutfit
          { id := "99", name := "Outfit 1", thumbnailUrl := "shirt.png"
          , layers := [none, some gShirt] }
          (fun _ => some "re.png") (handleSaveOutfit "99" sTwo)).1).map
        (fun l => l.garment)
      = (activeOutfitLayers sTwo).map (fun l => l.garment) :=
  c8_save_load_round_trip sTwo "99" (fun _ => some "re.png")
    { id := "99", name := "Outfit 1", thumbnailUrl := "shirt.png"
    , layers := [none, some gShirt] }
    ⟨by decide, by decide⟩ (by decide) (by decide) (by decide) (by decide)
    (fun j => rfl) (by decide)

end FitCheck
